import Mathlib

/-!
Shallow embedding of `library/mikrotik_command.py` from the
`ansible-mikrotik` repository, together with theorems settling the
specification's claims about it.

The module is a single Python file.  The parts embedded here are:

* the textual error heuristic of `sshcmd` (lines 189-198);
* the before/after configuration diff of `main` (lines 322-331) and the
  default of the `changed` flag (line 204);
* the session-release behaviour of every exit path (`safe_fail`,
  `safe_exit`, and the `SHELLMODE` branches that call `sys.exit`);
* the two-attempt authentication policy of `device_connect`
  (lines 155-176);
* the default option values of the two invocation surfaces (`SHELLDEFS`,
  lines 23-33, and the `AnsibleModule` argument spec, lines 206-219);
* the standalone argument parsing `parse_opts` (lines 129-153);
* the upload / script / command selection logic of `main`
  (lines 270-318), including the post-upload existence check.

Python strings are Lean `String`s; Python lists of lines are
`List String`; `None`-able strings are `Option String`.  Helper
functions on `List Char` replace Python string primitives so that every
definition is structurally recursive and evaluable by `decide`/`rfl`.
-/

namespace Mikrotik

/-- Python `haystack.startswith(needle)` on explicit character lists:
`needle` is the first argument, the haystack the second. -/
def startsWithChars : List Char → List Char → Bool
  | [], _ => true
  | _ :: _, [] => false
  | n :: ns, h :: hs => n == h && startsWithChars ns hs

/-- Python substring membership `needle in haystack` on character lists:
true when `needle` occurs as a contiguous run of `hay`.  The empty needle
is contained in everything, as in Python. -/
def containsChars (needle : List Char) : List Char → Bool
  | [] => startsWithChars needle []
  | h :: hs => startsWithChars needle (h :: hs) || containsChars needle hs

/-- Python `sub in s` for strings. -/
def strContains (s sub : String) : Bool :=
  containsChars sub.data s.data

/-- Python `s.startswith(p)` for strings. -/
def strStarts (s p : String) : Bool :=
  startsWithChars p.data s.data

/-- Python `s.rstrip()`: drop trailing whitespace
(source line 193, `response.rstrip()`). -/
def pyRstrip (s : String) : String :=
  String.mk (List.dropWhile Char.isWhitespace s.data.reverse).reverse

/-- Python `s.lower()` (source lines 140 and 142, `val.lower()`). -/
def pyLower (s : String) : String :=
  String.mk (s.data.map Char.toLower)

/-- Python truthiness of a `None`-able string (`if upload_file and ...`,
source lines 270, 285, 313): `None` and the empty string are falsy. -/
def pyTruthy : Option String → Bool
  | Option.none => false
  | Option.some s => !s.data.isEmpty

/-- Helper for `os.path.basename` on POSIX paths (source lines 271 and 297):
everything after the last `/` (empty when the path ends in `/`). -/
def basenameAux : List Char → List Char → List Char
  | [], acc => acc.reverse
  | c :: cs, acc => if c = '/' then basenameAux cs [] else basenameAux cs (c :: acc)

/-- Python `os.path.basename(p)`. -/
def basename (p : String) : String :=
  String.mk (basenameAux p.data [])

/-- Outcome of one `sshcmd` call: the device's (right-stripped) response,
or the module failure raised by the textual error heuristic. -/
inductive CmdOutcome where
  | ok : String → CmdOutcome
  | cmdError : String → CmdOutcome
deriving DecidableEq, Repr

/-- Classification of a command response by `sshcmd`
(source lines 189-198): the nested `not in` tests return
`response.rstrip()` when none of the three error phrases occurs in the
response, and otherwise fail the invocation with
`'bad command name or syntax error'`. -/
def sshcmd_classify (response : String) : CmdOutcome :=
  if !(strContains response "bad command name ") then
    if !(strContains response "syntax error ") then
      if !(strContains response "failure: ") then
        CmdOutcome.ok (pyRstrip response)
      else CmdOutcome.cmdError "bad command name or syntax error"
    else CmdOutcome.cmdError "bad command name or syntax error"
  else CmdOutcome.cmdError "bad command name or syntax error"

/-- Whether a `sshcmd` outcome is the error case. -/
def isCmdError : CmdOutcome → Bool
  | CmdOutcome.ok _ => false
  | CmdOutcome.cmdError _ => true

/-- The before/after configuration comparison of `main`
(source lines 322-331).  Snapshots are the `splitlines(1)` line lists of
the two `export` responses; `[1:]` is `List.drop 1`.  `changed` starts
`True` (line 204); the `for ... else` loop sets it to `False` exactly
when the lengths agree and no zipped pair mismatches. -/
def diff_changed (before after : List String) : Bool :=
  let b := before.drop 1
  let a := after.drop 1
  if b.length == a.length then
    if (b.zip a).all (fun p => p.1 == p.2) then false else true
  else true

/-- The `changed` flag computed by `main`: initialised `True`
(source line 204) and only ever modified inside the
`if test_change:` block (source lines 322-331). -/
def main_changed (test_change : Bool) (before after : List String) : Bool :=
  if test_change then diff_changed before after else true

/-- The two invocation surfaces: embedded in an automation pipeline
(`AnsibleModule`) or standalone from a shell (`SHELLMODE`). -/
inductive Mode where
  | pipeline : Mode
  | shellmode : Mode
deriving DecidableEq, Repr

/-- The exit paths of one invocation that are reached after the
`paramiko.SSHClient` handle exists (line 263).  Paths before the handle
exists (missing ssh client, missing command, DNS failure) are not listed:
there is no session to release on them. -/
inductive ExitPath where
  | success : ExitPath
  | connectFailed : ExitPath
  | transportError : ExitPath
  | cmdRejected : ExitPath
  | uploadFailed : ExitPath
  | scriptFileError : ExitPath
deriving DecidableEq, Repr

/-- How many times `device.close()` runs on each exit path, read off the
source.  Pipeline mode always goes through `safe_fail`/`safe_exit`
(lines 117-127), which close the device once when it is passed.
`SHELLMODE`: success closes at line 334; upload failure closes at
line 280; script-file failure closes at line 293; but the `sys.exit`
calls for a failed connection (line 173), a transport exception
(line 186) and a heuristically rejected command (line 196) exit without
closing. -/
def closeCount : Mode → ExitPath → Nat
  | Mode.pipeline, _ => 1
  | Mode.shellmode, ExitPath.success => 1
  | Mode.shellmode, ExitPath.uploadFailed => 1
  | Mode.shellmode, ExitPath.scriptFileError => 1
  | Mode.shellmode, ExitPath.connectFailed => 0
  | Mode.shellmode, ExitPath.transportError => 0
  | Mode.shellmode, ExitPath.cmdRejected => 0

/-- The authentication-relevant keyword options of one
`device.connect(...)` call in `device_connect` (lines 162-170).
`paramiko` defaults both to `True` when they are not passed. -/
structure ConnOpts where
  allow_agent : Bool
  look_for_keys : Bool
deriving DecidableEq, Repr

/-- Options of the first `device.connect` call (lines 162-164): neither
keyword is passed, so both keep their `paramiko` default `True`. -/
def first_attempt_opts : ConnOpts := ⟨true, true⟩

/-- Options of the fallback `device.connect` call (lines 167-170):
`allow_agent=False, look_for_keys=False`. -/
def fallback_opts : ConnOpts := ⟨false, false⟩

/-- Result of `device_connect`: either the device is connected or the
invocation terminates with a connection error (`sys.exit` in shell mode,
`safe_fail` in pipeline mode, lines 171-176). -/
inductive ConnResult where
  | connected : ConnResult
  | connectionError : ConnResult
deriving DecidableEq, Repr

/-- The function `device_connect` (lines 155-176) as a function of which of the two
`device.connect` calls would succeed: the list of attempts actually made
(in order, with their options) and the outcome.  The fallback runs only
inside the `except` of the first attempt; the fallback's own `except`
terminates the invocation, so no third attempt exists in the source. -/
def device_connect (first_ok fallback_ok : Bool) : List ConnOpts × ConnResult :=
  if first_ok then ([first_attempt_opts], ConnResult.connected)
  else if fallback_ok then ([first_attempt_opts, fallback_opts], ConnResult.connected)
  else ([first_attempt_opts, fallback_opts], ConnResult.connectionError)

/-- A Python option value as it occurs in `SHELLDEFS`, in the
`AnsibleModule` argument defaults, and in `parse_opts`: a string, a
boolean, an integer, or `None`. -/
inductive Val where
  | vStr : String → Val
  | vBool : Bool → Val
  | vInt : Nat → Val
  | vNone : Val
deriving DecidableEq, Repr

/-- The `SHELLDEFS` dict (source lines 23-33), in source order, as an
association list. -/
def SHELLDEFS : List (String × Val) :=
  [("username", Val.vStr "admin"),
   ("password", Val.vStr ""),
   ("key_filename", Val.vNone),
   ("timeout", Val.vInt 30),
   ("port", Val.vInt 22),
   ("test_change", Val.vBool true),
   ("command", Val.vNone),
   ("upload_script", Val.vNone),
   ("upload_file", Val.vNone)]

/-- One entry of the `AnsibleModule` argument spec (lines 207-218):
its default value, its declared ansible type, and whether it is
required. -/
structure ArgSpec where
  default : Val
  type : String
  required : Bool
deriving DecidableEq, Repr

/-- The `argument_spec` dict of the pipeline surface (source
lines 206-219), in source order.  `timeout` is declared `float` with the
integral default `30`; `hostname` is required and has no default. -/
def argument_spec : List (String × ArgSpec) :=
  [("command", ⟨Val.vNone, "str", false⟩),
   ("upload_script", ⟨Val.vNone, "path", false⟩),
   ("test_change", ⟨Val.vBool true, "bool", false⟩),
   ("upload_file", ⟨Val.vNone, "path", false⟩),
   ("key_filename", ⟨Val.vNone, "path", false⟩),
   ("port", ⟨Val.vInt 22, "int", false⟩),
   ("timeout", ⟨Val.vInt 30, "float", false⟩),
   ("hostname", ⟨Val.vNone, "str", true⟩),
   ("username", ⟨Val.vStr "ansible", "str", false⟩),
   ("password", ⟨Val.vNone, "str", false⟩)]

/-- Dictionary lookup in an option association list. -/
def lookupVal (opts : List (String × Val)) (k : String) : Option Val :=
  (opts.find? (fun p => p.1 == k)).map (fun p => p.2)

/-- The default the pipeline surface gives option `k`. -/
def spec_default (k : String) : Option Val :=
  (argument_spec.find? (fun p => p.1 == k)).map (fun p => p.2.default)

/-- Python dict membership `k in opts`. -/
def containsKey (opts : List (String × Val)) (k : String) : Bool :=
  opts.any (fun p => p.1 == k)

/-- Python dict assignment `opts[k] = v`: replace the value when the key
exists, append the pair when it does not. -/
def setKey (opts : List (String × Val)) (k : String) (v : Val) : List (String × Val) :=
  if containsKey opts k then
    opts.map (fun p => if p.1 == k then (k, v) else p)
  else opts ++ [(k, v)]

/-- The boolean coercion of `parse_opts` (lines 140-143), applied only
to values that came from an explicit `--key=value` split:
`val.lower() in ('no','false','0')` becomes `False`,
`val.lower() in ('yes','true','1')` becomes `True`, anything else stays
the literal string. -/
def coerceVal (v : String) : Val :=
  if pyLower v = "no" ∨ pyLower v = "false" ∨ pyLower v = "0" then Val.vBool false
  else if pyLower v = "yes" ∨ pyLower v = "true" ∨ pyLower v = "1" then Val.vBool true
  else Val.vStr v

/-- Python `opt.split("=", 1)`: the text before the first `=` and, when
one exists, the text after it (which may itself contain `=`). -/
def splitFirstEq : List Char → List Char × Option (List Char)
  | [] => ([], Option.none)
  | c :: cs =>
      if c = '=' then ([], Option.some cs)
      else
        let r := splitFirstEq cs
        (c :: r.1, r.2)

/-- The `(arg, val)` pair `parse_opts` derives from one `--...` element
(lines 134-144): without `=` the value is `True` (the `except
ValueError` branch, no coercion); with `=` the value is coerced; the
leading `--` is removed by `arg = arg[2:]`. -/
def optArgVal (opt : String) : String × Val :=
  match splitFirstEq opt.data with
  | (a, Option.none) => (String.mk (a.drop 2), Val.vBool true)
  | (a, Option.some v) => (String.mk (a.drop 2), coerceVal (String.mk v))

/-- The parser `parse_opts` (source lines 129-153) over the remaining command line
and the accumulated options dict (which starts as `SHELLDEFS`).
Elements not starting with `--` are skipped.  A recognised option
(`arg in options or arg == 'hostname'`) is stored; an unrecognised one
prints the usage text and exits non-zero, modelled as `Except.error`
with the `sys.exit` message.  After the loop, a missing `hostname` key
likewise prints the usage text and exits non-zero. -/
def parse_opts : List String → List (String × Val) → Except String (List (String × Val))
  | [], opts =>
      if containsKey opts "hostname" then Except.ok opts
      else Except.error "Hostname is required, specify with --hostname=<hostname>"
  | opt :: rest, opts =>
      if strStarts opt "--" then
        if containsKey opts (optArgVal opt).1 = true ∨ (optArgVal opt).1 = "hostname" then
          parse_opts rest (setKey opts (optArgVal opt).1 (optArgVal opt).2)
        else Except.error ("Unknown option: --" ++ (optArgVal opt).1)
      else parse_opts rest opts

/-- One observable step of `main` between `device_connect` and the final
`export` (source lines 270-318).  `uploadFile` is the `sftp.put` plus
the `file print` existence check; `uploadError` the failure exit of that
check; `runScript` the remove/add/run command triple of the script
branch; `runCommand` a plain `sshcmd` of the given command;
`unboundLocal` the Python `UnboundLocalError` raised at line 316 when
`uploaded` (assigned only at line 271, inside the
`upload_file and os.path.isfile(upload_file)` branch) is referenced
without having been assigned. -/
inductive MainStep where
  | uploadFile : String → MainStep
  | uploadError : String → MainStep
  | runScript : String → MainStep
  | runCommand : Option String → MainStep
  | unboundLocal : MainStep
deriving DecidableEq, Repr

/-- The upload / script / command phase of `main` (source
lines 270-318) as the list of steps it performs.  `isfile` is the
`os.path.isfile` oracle and `listing` the device's response to the
post-upload `file print terse` check (line 275); `username` is
`rosdev['username']`.  The upload block runs when `upload_file` is
truthy and names an existing file, and aborts the invocation when the
listing does not contain the uploaded basename (lines 278-283).  The
script branch runs when `upload_script` is truthy and names an existing
file (line 285); otherwise the special command
`'user ssh-keys import'` is rewritten (lines 313-316, crashing with an
`UnboundLocalError` when the upload block never assigned `uploaded`),
and any other command is executed literally (line 318). -/
def command_phase (upload_file upload_script command : Option String)
    (isfile : String → Bool) (listing : String) (username : String) : List MainStep :=
  let do_upload := pyTruthy upload_file && isfile (upload_file.getD "")
  let uploaded := basename (upload_file.getD "")
  let pre : List MainStep := if do_upload then [MainStep.uploadFile uploaded] else []
  if do_upload && !(strContains listing uploaded) then
    pre ++ [MainStep.uploadError uploaded]
  else
    let do_script := pyTruthy upload_script && isfile (upload_script.getD "")
    if do_script then
      pre ++ [MainStep.runScript (basename (upload_script.getD ""))]
    else if pyTruthy upload_file && (if command = Option.some "user ssh-keys import" then true else false) then
      if do_upload then
        pre ++ [MainStep.runCommand (Option.some
          ("/user ssh-keys import public-key-file=\"" ++ uploaded ++ "\" user=" ++ username))]
      else
        pre ++ [MainStep.unboundLocal]
    else
      pre ++ [MainStep.runCommand command]

/-! ## Helper lemmas -/

/-- The diff of `main` yields `changed = false` exactly when the two
snapshots, first lines dropped, have equal length and agree pairwise. -/
theorem diff_changed_false_iff (before after : List String) :
    diff_changed before after = false ↔
      ((before.drop 1).length = (after.drop 1).length ∧
        ∀ p ∈ (before.drop 1).zip (after.drop 1), p.1 = p.2) := by
  unfold diff_changed
  dsimp only
  split_ifs with h1 h2
  · refine iff_of_true rfl ⟨by simpa using h1, ?_⟩
    intro p hp
    simpa using List.all_eq_true.mp h2 p hp
  · refine iff_of_false (by simp) ?_
    rintro ⟨-, hall⟩
    refine h2 (List.all_eq_true.mpr ?_)
    intro p hp
    simpa using hall p hp
  · refine iff_of_false (by simp) ?_
    rintro ⟨hlen, -⟩
    exact h1 (by simpa using hlen)

/-- Keys after a dict assignment: a key of `setKey opts k v` is a key of
`opts` or is `k` itself. -/
theorem containsKey_setKey_imp (opts : List (String × Val)) (k a : String) (v : Val)
    (h : containsKey (setKey opts k v) a = true) :
    containsKey opts a = true ∨ a = k := by
  unfold setKey at h
  split_ifs at h with hk
  · unfold containsKey at h ⊢
    rw [List.any_map] at h
    obtain ⟨p, hp, hpa⟩ := List.any_eq_true.mp h
    by_cases hpk : (p.1 == k) = true
    · right
      simp only [Function.comp, if_pos hpk] at hpa
      exact (beq_iff_eq.mp hpa).symm
    · left
      simp only [Function.comp, if_neg hpk] at hpa
      exact List.any_eq_true.mpr ⟨p, hp, hpa⟩
  · unfold containsKey at h ⊢
    rw [List.any_append, Bool.or_eq_true] at h
    rcases h with h | h
    · exact Or.inl h
    · right
      simp only [List.any_cons, List.any_nil, Bool.or_false] at h
      exact (beq_iff_eq.mp h).symm

/-- When the command line contains a `--` option whose name is neither a
`SHELLDEFS` key nor `hostname`, `parse_opts` exits with an error
(either on that option or on an earlier offending one), provided every
key of the accumulated dict is a `SHELLDEFS` key or `hostname` — true of
the initial dict. -/
theorem parse_opts_error_of_unknown (argv : List String) :
    ∀ opts : List (String × Val),
      (∀ a, containsKey opts a = true → containsKey SHELLDEFS a = true ∨ a = "hostname") →
      (∃ opt ∈ argv, strStarts opt "--" = true ∧
        containsKey SHELLDEFS (optArgVal opt).1 = false ∧ (optArgVal opt).1 ≠ "hostname") →
      ∃ msg, parse_opts argv opts = Except.error msg := by
  induction argv with
  | nil =>
    rintro opts - ⟨opt, hmem, -⟩
    exact absurd hmem (List.not_mem_nil opt)
  | cons opt rest ih =>
    rintro opts hkeys ⟨bad, hbadmem, hbadstart, hbadkey, hbadhost⟩
    by_cases hs : strStarts opt "--" = true
    · by_cases hc : containsKey opts (optArgVal opt).1 = true ∨ (optArgVal opt).1 = "hostname"
      · rcases List.mem_cons.mp hbadmem with rfl | hmem
        · exfalso
          rcases hc with hc | hc
          · rcases hkeys _ hc with hk | hk
            · rw [hk] at hbadkey
              exact absurd hbadkey (by decide)
            · exact hbadhost hk
          · exact hbadhost hc
        · obtain ⟨msg, hmsg⟩ := ih (setKey opts (optArgVal opt).1 (optArgVal opt).2)
            (fun a ha => by
              rcases containsKey_setKey_imp opts (optArgVal opt).1 a (optArgVal opt).2 ha
                with h' | h'
              · exact hkeys a h'
              · subst h'
                rcases hc with hc | hc
                · exact hkeys _ hc
                · exact Or.inr hc)
            ⟨bad, hmem, hbadstart, hbadkey, hbadhost⟩
          refine ⟨msg, ?_⟩
          simp only [parse_opts]
          rw [if_pos hs, if_pos hc]
          exact hmsg
      · refine ⟨"Unknown option: --" ++ (optArgVal opt).1, ?_⟩
        simp only [parse_opts]
        rw [if_pos hs, if_neg hc]
    · rcases List.mem_cons.mp hbadmem with rfl | hmem
      · exact absurd hbadstart hs
      · obtain ⟨msg, hmsg⟩ := ih opts hkeys ⟨bad, hmem, hbadstart, hbadkey, hbadhost⟩
        refine ⟨msg, ?_⟩
        simp only [parse_opts]
        rw [if_neg hs]
        exact hmsg

/-- When no command-line element is a `--hostname...` option and the
accumulated dict has no `hostname` key, `parse_opts` exits with an
error. -/
theorem parse_opts_error_of_no_hostname (argv : List String) :
    ∀ opts : List (String × Val),
      containsKey opts "hostname" = false →
      (∀ opt ∈ argv, strStarts opt "--" = true → (optArgVal opt).1 ≠ "hostname") →
      ∃ msg, parse_opts argv opts = Except.error msg := by
  induction argv with
  | nil =>
    intro opts hnot _
    refine ⟨"Hostname is required, specify with --hostname=<hostname>", ?_⟩
    simp only [parse_opts]
    rw [if_neg (by simp [hnot])]
  | cons opt rest ih =>
    intro opts hnot hargv
    by_cases hs : strStarts opt "--" = true
    · have hneq : (optArgVal opt).1 ≠ "hostname" := hargv opt (List.mem_cons_self opt rest) hs
      by_cases hc : containsKey opts (optArgVal opt).1 = true ∨ (optArgVal opt).1 = "hostname"
      · have habs : containsKey (setKey opts (optArgVal opt).1 (optArgVal opt).2)
            "hostname" = false := by
          cases hck : containsKey (setKey opts (optArgVal opt).1 (optArgVal opt).2)
              "hostname" with
          | false => rfl
          | true =>
            exfalso
            rcases containsKey_setKey_imp opts (optArgVal opt).1 "hostname"
                (optArgVal opt).2 hck with h' | h'
            · rw [h'] at hnot
              exact absurd hnot (by decide)
            · exact hneq h'.symm
        obtain ⟨msg, hmsg⟩ := ih _ habs (fun o ho => hargv o (List.mem_cons_of_mem opt ho))
        refine ⟨msg, ?_⟩
        simp only [parse_opts]
        rw [if_pos hs, if_pos hc]
        exact hmsg
      · refine ⟨"Unknown option: --" ++ (optArgVal opt).1, ?_⟩
        simp only [parse_opts]
        rw [if_pos hs, if_neg hc]
    · obtain ⟨msg, hmsg⟩ := ih opts hnot (fun o ho => hargv o (List.mem_cons_of_mem opt ho))
      refine ⟨msg, ?_⟩
      simp only [parse_opts]
      rw [if_neg hs]
      exact hmsg

/-- Python truthiness of `None` is false. -/
theorem pyTruthy_none : pyTruthy none = false := rfl

/-- Evaluation of the command phase when `upload_file` is unset: no
upload block, and either the script branch or the plain command runs. -/
theorem command_phase_none_upload (us com : Option String) (isfile : String → Bool)
    (listing user : String) :
    command_phase none us com isfile listing user
      = if (pyTruthy us && isfile (us.getD "")) = true
        then [MainStep.runScript (basename (us.getD ""))]
        else [MainStep.runCommand com] := by
  unfold command_phase
  dsimp only
  rw [pyTruthy_none]
  simp only [Bool.false_and, Bool.false_eq_true, if_false, List.nil_append]

/-- Evaluation of the command phase when `upload_file` names a file that
does not exist locally: the upload block is skipped, and after the
script test the special command rewrite (line 313) references the
never-assigned `uploaded`. -/
theorem command_phase_missing_upload (f : String) (us com : Option String)
    (isfile : String → Bool) (listing user : String) (hf : isfile f = false) :
    command_phase (some f) us com isfile listing user
      = if (pyTruthy us && isfile (us.getD "")) = true
        then [MainStep.runScript (basename (us.getD ""))]
        else if (pyTruthy (some f)
            && (if com = some "user ssh-keys import" then true else false)) = true
        then [MainStep.unboundLocal]
        else [MainStep.runCommand com] := by
  unfold command_phase
  dsimp only
  rw [Option.getD_some, hf]
  simp only [Bool.and_false, Bool.false_and, Bool.false_eq_true, if_false,
    List.nil_append]

/-! ## Claims -/

/-- C1.  With change testing enabled, the diff over the before and after
snapshots (each with its first captured line dropped) yields
`changed = false` iff the two dropped snapshots have the same number of
lines and every corresponding pair of lines is equal; a length
difference or any mismatching pair yields `changed = true`. -/
theorem C1_diff_changed_iff (before after : List String) :
    (diff_changed before after = false ↔
      ((before.drop 1).length = (after.drop 1).length ∧
        ∀ p ∈ (before.drop 1).zip (after.drop 1), p.1 = p.2)) ∧
    (diff_changed before after = true ↔
      ¬ ((before.drop 1).length = (after.drop 1).length ∧
        ∀ p ∈ (before.drop 1).zip (after.drop 1), p.1 = p.2)) := by
  refine ⟨diff_changed_false_iff before after, ?_⟩
  rw [← diff_changed_false_iff before after]
  cases h : diff_changed before after <;> simp [h]

/-- C2.  `sshcmd` classifies a response as a command error iff the text
contains one of the substrings `"bad command name "`, `"syntax error "`,
`"failure: "`; any text containing `"syntax error "` is an error, and
any text containing none of the three is returned (right-stripped) as a
success. -/
theorem C2_sshcmd_error_iff (r : String) :
    (isCmdError (sshcmd_classify r) = true ↔
      (strContains r "bad command name " = true ∨
        strContains r "syntax error " = true ∨
        strContains r "failure: " = true)) ∧
    (strContains r "syntax error " = true → isCmdError (sshcmd_classify r) = true) ∧
    ((strContains r "bad command name " = false ∧
        strContains r "syntax error " = false ∧
        strContains r "failure: " = false) →
      sshcmd_classify r = CmdOutcome.ok (pyRstrip r)) := by
  unfold sshcmd_classify
  cases h1 : strContains r "bad command name " <;>
    cases h2 : strContains r "syntax error " <;>
      cases h3 : strContains r "failure: " <;>
        simp [isCmdError]

/-- C3.  Whenever change testing is disabled the `changed` flag is
`true`; the flag is `false` only when the change-testing branch ran and
the two snapshots (first lines dropped) compare equal. -/
theorem C3_changed_default (tc : Bool) (before after : List String) :
    (tc = false → main_changed tc before after = true) ∧
    (main_changed tc before after = false →
      tc = true ∧
        (before.drop 1).length = (after.drop 1).length ∧
        ∀ p ∈ (before.drop 1).zip (after.drop 1), p.1 = p.2) := by
  cases tc with
  | false => simp [main_changed]
  | true =>
    refine ⟨by simp, ?_⟩
    intro h
    have := (diff_changed_false_iff before after).mp (by simpa [main_changed] using h)
    exact ⟨rfl, this⟩

/-- C4, counterexample.  The claim says the Session is closed exactly
once on every exit path in both modes; but in standalone (shell) mode
the command-rejection path exits via `sys.exit` (source line 196)
without ever calling `device.close()`. -/
theorem C4_cex_shell_cmd_rejected_no_close :
    ¬ closeCount Mode.shellmode ExitPath.cmdRejected = 1 := by
  decide

/-- C4, amended.  In pipeline mode every exit path releases the Session
exactly once (via `safe_fail`/`safe_exit`); in standalone mode only the
success, upload-failure and script-file-error paths close the Session
(once each), while the connection-failure, transport-exception and
command-rejection paths exit the process without closing it. -/
theorem C4_amended_close_counts :
    closeCount Mode.pipeline ExitPath.success = 1 ∧
    closeCount Mode.pipeline ExitPath.connectFailed = 1 ∧
    closeCount Mode.pipeline ExitPath.transportError = 1 ∧
    closeCount Mode.pipeline ExitPath.cmdRejected = 1 ∧
    closeCount Mode.pipeline ExitPath.uploadFailed = 1 ∧
    closeCount Mode.pipeline ExitPath.scriptFileError = 1 ∧
    closeCount Mode.shellmode ExitPath.success = 1 ∧
    closeCount Mode.shellmode ExitPath.uploadFailed = 1 ∧
    closeCount Mode.shellmode ExitPath.scriptFileError = 1 ∧
    closeCount Mode.shellmode ExitPath.connectFailed = 0 ∧
    closeCount Mode.shellmode ExitPath.transportError = 0 ∧
    closeCount Mode.shellmode ExitPath.cmdRejected = 0 := by
  decide

/-- C5.  Authentication is attempted at most twice per connection: the
first attempt uses the default key/agent options; exactly one fallback
with `allow_agent=False, look_for_keys=False` follows a failed first
attempt; a third attempt never occurs, and when the fallback also fails
the invocation terminates with a connection error. -/
theorem C5_two_auth_attempts (first_ok fallback_ok : Bool) :
    ((device_connect first_ok fallback_ok).1.length ≤ 2) ∧
    ((device_connect first_ok fallback_ok).1.head? = some first_attempt_opts) ∧
    (first_ok = true → (device_connect first_ok fallback_ok).1 = [first_attempt_opts]) ∧
    (first_ok = false →
      (device_connect first_ok fallback_ok).1 = [first_attempt_opts, fallback_opts]) ∧
    (fallback_opts.allow_agent = false ∧ fallback_opts.look_for_keys = false) ∧
    (first_ok = false → fallback_ok = false →
      (device_connect first_ok fallback_ok).2 = ConnResult.connectionError) := by
  cases first_ok <;> cases fallback_ok <;> decide

/-- C6, counterexample.  The claim says both surfaces default `username`
to `"ansible"`; but `SHELLDEFS` (line 24) defaults it to `"admin"`,
while the pipeline argument spec (line 216) defaults it to
`"ansible"`. -/
theorem C6_cex_username_defaults_differ :
    lookupVal SHELLDEFS "username" = some (Val.vStr "admin") ∧
    spec_default "username" = some (Val.vStr "ansible") ∧
    lookupVal SHELLDEFS "username" ≠ spec_default "username" := by
  decide

/-- C6, amended.  The two surfaces agree on the defaults of `port` (22),
`timeout` (30), `test_change` (true), `command`, `upload_script`,
`upload_file` and `key_filename` (all unset); but `username` defaults to
`"admin"` standalone versus `"ansible"` in the pipeline, and `password`
defaults to the empty string standalone versus unset in the
pipeline. -/
theorem C6_amended_defaults :
    lookupVal SHELLDEFS "port" = some (Val.vInt 22) ∧
    spec_default "port" = some (Val.vInt 22) ∧
    lookupVal SHELLDEFS "timeout" = some (Val.vInt 30) ∧
    spec_default "timeout" = some (Val.vInt 30) ∧
    lookupVal SHELLDEFS "test_change" = some (Val.vBool true) ∧
    spec_default "test_change" = some (Val.vBool true) ∧
    lookupVal SHELLDEFS "command" = some Val.vNone ∧
    spec_default "command" = some Val.vNone ∧
    lookupVal SHELLDEFS "upload_script" = some Val.vNone ∧
    spec_default "upload_script" = some Val.vNone ∧
    lookupVal SHELLDEFS "upload_file" = some Val.vNone ∧
    spec_default "upload_file" = some Val.vNone ∧
    lookupVal SHELLDEFS "key_filename" = some Val.vNone ∧
    spec_default "key_filename" = some Val.vNone ∧
    lookupVal SHELLDEFS "username" = some (Val.vStr "admin") ∧
    spec_default "username" = some (Val.vStr "ansible") ∧
    lookupVal SHELLDEFS "password" = some (Val.vStr "") ∧
    spec_default "password" = some Val.vNone := by
  decide

/-- C7.  In standalone argument parsing, a `--key=value` value is
coerced to `False` when it is (case-insensitively) `no`, `false` or `0`
and to `True` when it is `yes`, `true` or `1`; an option name that is
neither a known option nor `hostname` makes `parse_opts` exit with a
usage error (the `Except.error` outcome, reached before `main` and hence
before any connection attempt); and a command line that never sets
`hostname` likewise makes `parse_opts` exit with a usage error. -/
theorem C7_parse_opts_spec (v : String) (argv : List String) :
    ((pyLower v = "no" ∨ pyLower v = "false" ∨ pyLower v = "0") →
      coerceVal v = Val.vBool false) ∧
    ((pyLower v = "yes" ∨ pyLower v = "true" ∨ pyLower v = "1") →
      coerceVal v = Val.vBool true) ∧
    ((∃ opt ∈ argv, strStarts opt "--" = true ∧
        containsKey SHELLDEFS (optArgVal opt).1 = false ∧ (optArgVal opt).1 ≠ "hostname") →
      ∃ msg, parse_opts argv SHELLDEFS = Except.error msg) ∧
    ((∀ opt ∈ argv, strStarts opt "--" = true → (optArgVal opt).1 ≠ "hostname") →
      ∃ msg, parse_opts argv SHELLDEFS = Except.error msg) := by
  refine ⟨?_, ?_, ?_, ?_⟩
  · rintro (h | h | h) <;> (unfold coerceVal; rw [h]) <;> simp
  · rintro (h | h | h) <;> (unfold coerceVal; rw [h]) <;> simp
  · exact parse_opts_error_of_unknown argv SHELLDEFS (fun a ha => Or.inl ha)
  · exact parse_opts_error_of_no_hostname argv SHELLDEFS (by decide)

/-- C8.  When an upload is performed and the post-upload `file print`
listing does not contain the uploaded basename, the invocation stops at
the upload-error exit (no script or command runs after it), and on that
exit path the session is closed exactly once in both modes
(`safe_fail` with the device in pipeline mode, the explicit
`device.close()` at line 280 in shell mode). -/
theorem C8_upload_check_failure (f : String) (us com : Option String)
    (isfile : String → Bool) (listing user : String)
    (hfile : isfile f = true) (hne : f.data.isEmpty = false)
    (hmiss : strContains listing (basename f) = false) :
    command_phase (some f) us com isfile listing user
      = [MainStep.uploadFile (basename f), MainStep.uploadError (basename f)] ∧
    closeCount Mode.pipeline ExitPath.uploadFailed = 1 ∧
    closeCount Mode.shellmode ExitPath.uploadFailed = 1 := by
  refine ⟨?_, rfl, rfl⟩
  unfold command_phase
  dsimp only
  rw [show pyTruthy (some f) = true by simp [pyTruthy, hne]]
  rw [show (some f : Option String).getD "" = f from rfl]
  rw [hfile, hmiss]
  simp

/-- C8 witness: upload of `id_rsa.pub` answered by an empty device
listing. -/
theorem C8_upload_check_failure_witness :
    command_phase (some "id_rsa.pub") none none (fun _ => true) "" "ansible"
      = [MainStep.uploadFile (basename "id_rsa.pub"),
         MainStep.uploadError (basename "id_rsa.pub")] ∧
    closeCount Mode.pipeline ExitPath.uploadFailed = 1 ∧
    closeCount Mode.shellmode ExitPath.uploadFailed = 1 :=
  C8_upload_check_failure "id_rsa.pub" none none (fun _ => true) "" "ansible"
    rfl (by decide) (by decide)

/-- C9, counterexample.  The claim says a set-but-missing `upload_file`
is silently skipped with no error of any kind and the literal command
runs; but when the command is exactly `'user ssh-keys import'` the code
takes the rewrite branch (line 313 tests only `upload_file and
command == ...`) and references `uploaded`, which was never assigned, so
the invocation raises `UnboundLocalError` instead of running the
command. -/
theorem C9_cex_missing_upload_crashes :
    command_phase (some "missing.pub") none (some "user ssh-keys import")
        (fun _ => false) "" "ansible"
      = [MainStep.unboundLocal] ∧
    command_phase (some "missing.pub") none (some "user ssh-keys import")
        (fun _ => false) "" "ansible"
      ≠ [MainStep.runCommand (some "user ssh-keys import")] := by
  decide

/-- C9, amended.  When `upload_file` names a non-existent local file the
upload step is skipped and the invocation behaves exactly as if
`upload_file` were unset — except when the command is exactly
`'user ssh-keys import'`, where the rewrite branch references the
never-assigned `uploaded` name and raises `UnboundLocalError`.  When
`upload_script` names a non-existent local file the script branch is
skipped and the plain command (possibly unset) is executed instead. -/
theorem C9_amended_silent_skip (f : String) (us com : Option String)
    (isfile : String → Bool) (listing user : String)
    (hf : isfile f = false) :
    (command_phase (some f) us com isfile listing user
        = command_phase none us com isfile listing user
      ∨ (com = some "user ssh-keys import" ∧
          command_phase (some f) us com isfile listing user = [MainStep.unboundLocal])) ∧
    (∀ g, isfile g = false →
      command_phase none (some g) com isfile listing user
        = [MainStep.runCommand com]) := by
  constructor
  · rw [command_phase_missing_upload f us com isfile listing user hf,
      command_phase_none_upload us com isfile listing user]
    by_cases hscript : (pyTruthy us && isfile (us.getD "")) = true
    · left
      rw [if_pos hscript, if_pos hscript]
    · rw [if_neg hscript, if_neg hscript]
      by_cases hcond : (pyTruthy (some f)
          && (if com = some "user ssh-keys import" then true else false)) = true
      · right
        have hcom : com = some "user ssh-keys import" := by
          by_contra hnc
          rw [if_neg hnc, Bool.and_false] at hcond
          exact absurd hcond (by decide)
        exact ⟨hcom, by rw [if_pos hcond]⟩
      · left
        rw [if_neg hcond]
  · intro g hg
    rw [command_phase_none_upload (some g) com isfile listing user]
    rw [if_neg (by simp [hg])]

/-- C9 witness: `upload_file` and `upload_script` both name files that
do not exist locally; the plain command runs unchanged. -/
theorem C9_amended_silent_skip_witness :
    (command_phase (some "missing.pub") (some "script.rsc") (some "/system reboot")
          (fun _ => false) "" "ansible"
        = command_phase none (some "script.rsc") (some "/system reboot")
          (fun _ => false) "" "ansible"
      ∨ ((some "/system reboot" : Option String) = some "user ssh-keys import" ∧
          command_phase (some "missing.pub") (some "script.rsc") (some "/system reboot")
            (fun _ => false) "" "ansible" = [MainStep.unboundLocal])) ∧
    (∀ g, (fun _ => false : String → Bool) g = false →
      command_phase none (some g) (some "/system reboot") (fun _ => false) "" "ansible"
        = [MainStep.runCommand (some "/system reboot")]) :=
  C9_amended_silent_skip "missing.pub" (some "script.rsc") (some "/system reboot")
    (fun _ => false) "" "ansible" rfl

/-- C10.  With `upload_file` set to an existing local file, no script
branch, and the command exactly `'user ssh-keys import'`, the command
actually executed is the synthesized
`/user ssh-keys import public-key-file="<basename>" user=<username>`
string (lines 313-316); any other command string is executed
literally (line 318). -/
theorem C10_ssh_key_import_rewrite (f : String) (com : Option String)
    (isfile : String → Bool) (listing user : String)
    (hfile : isfile f = true) (hne : f.data.isEmpty = false)
    (hlist : strContains listing (basename f) = true) :
    command_phase (some f) none com isfile listing user
      = [MainStep.uploadFile (basename f),
         MainStep.runCommand
           (if com = some "user ssh-keys import" then
             some ("/user ssh-keys import public-key-file=\"" ++ basename f
               ++ "\" user=" ++ user)
           else com)] := by
  unfold command_phase
  dsimp only
  rw [show pyTruthy (some f) = true by simp [pyTruthy, hne]]
  rw [show (some f : Option String).getD "" = f from rfl]
  rw [hfile, hlist]
  rw [show pyTruthy (none : Option String) = false from rfl]
  by_cases hcom : com = some "user ssh-keys import"
  · rw [if_pos hcom]
    simp [hcom]
  · rw [if_neg hcom]
    simp [hcom]

/-- C10 witness: uploading `keys/id_rsa.pub` (listing echoes the
basename back) with the exact command `user ssh-keys import` yields the
synthesized import command. -/
theorem C10_ssh_key_import_rewrite_witness :
    command_phase (some "keys/id_rsa.pub") none (some "user ssh-keys import")
        (fun _ => true) "id_rsa.pub" "ansible"
      = [MainStep.uploadFile (basename "keys/id_rsa.pub"),
         MainStep.runCommand
           (if (some "user ssh-keys import" : Option String)
               = some "user ssh-keys import" then
             some ("/user ssh-keys import public-key-file=\""
               ++ basename "keys/id_rsa.pub" ++ "\" user=" ++ "ansible")
           else some "user ssh-keys import")] :=
  C10_ssh_key_import_rewrite "keys/id_rsa.pub" (some "user ssh-keys import")
    (fun _ => true) "id_rsa.pub" "ansible" rfl (by decide) (by decide)

end Mikrotik
